import Mathlib

/-!
Verification development for the cPanel API client (`src/cpanel.py`,
`src/config.py`): a shallow embedding of the request-construction and
error-normalization layer, with theorems checking the specification's
claims about it.

Modelling choices, stated once:
* Python `str` is Lean `String`; Python string methods used by the code
  (`split("@")`, `upper()`, `strip()`) are modelled for the ASCII inputs
  the client handles.
* JSON values are the inductive `JValue`; a decoded HTTP body is
  `Except String JValue` (`.error e` = body not valid JSON, carrying the
  decoder's message, which Python surfaces as a `ValueError`).
* Python exceptions escaping a call are the inductive `PyExc`.
  `CpanelAPIError` is `PyExc.cpanelAPIError`; `httpx.HTTPStatusError`
  (raised by `response.raise_for_status()`, a sibling of
  `httpx.RequestError` in httpx's hierarchy, hence caught by neither
  `except httpx.RequestError` nor `except ValueError`) is
  `PyExc.httpStatusError`; uncaught `IndexError` / `TypeError` /
  `KeyError` from subscripting are their own constructors.
* The network is an explicit `HttpResult` argument: either an
  `httpx.RequestError` (connection refused, timeout, DNS failure) or a
  response with an HTTP status code and a decoded body. Each client
  method builds exactly one request (`Request`) and consumes exactly one
  `HttpResult`, mirroring the single `httpx.get` call in the source.
* A Python `dict` of query parameters is an insertion-ordered
  association list `List (String × PValue)`; `dictSet` models in-place
  `d[k] = v` assignment (overwrite in place, else append), so the
  parameter list of a built request is the content of the caller's dict
  after the call.
-/

/-- JSON values as decoded by `response.json()`. Numbers are modelled as
integers; the claims under study involve no fractional numbers. -/
inductive JValue where
  | null
  | bool (b : Bool)
  | num (n : Int)
  | str (s : String)
  | arr (elems : List JValue)
  | obj (fields : List (String × JValue))

/-- Python exceptions that can escape a client call. -/
inductive PyExc where
  | cpanelAPIError (msg : String)
  | httpStatusError (code : Nat)
  | valueError (msg : String)
  | indexError
  | typeError
  | keyError
deriving DecidableEq, Repr

/-- Values placed in a query-parameter dict by the client (the source only
ever stores strings and ints there). -/
inductive PValue where
  | str (s : String)
  | int (n : Int)
deriving DecidableEq, Repr

/-- Outcome of the single `httpx.get` call a client method performs. -/
inductive HttpResult where
  | requestError (cause : String)
  | response (status : Nat) (body : Except String JValue)

/-- First-match lookup in a JSON object, Python `dict.get`. -/
def jGet : List (String × JValue) → String → Option JValue
  | [], _ => none
  | (k, v) :: rest, key => if k = key then some v else jGet rest key

/-- Python `value == 0` on the result of `dict.get`: true for the integer
`0` and for `False` (Python booleans compare equal to ints); `None`
(absent key) and every other JSON value compare unequal to `0`. -/
def pyEqZero : Option JValue → Bool
  | some (.num 0) => true
  | some (.bool false) => true
  | _ => false

/-- Python `str()` of a JSON value as interpolated into an f-string
(strings verbatim; other values by their Python rendering). -/
def pyStr : JValue → String
  | .str s => s
  | .num n => toString n
  | .bool true => "True"
  | .bool false => "False"
  | .null => "None"
  | .arr _ => "[...]"
  | .obj _ => "{...}"

/-- Python subscript `v[0]` on a decoded JSON value: first element of a
list (`IndexError` when empty), first character of a string
(`IndexError` when empty), `KeyError` on a dict (JSON objects have
string keys, never the int key `0`), `TypeError` otherwise. -/
def pySubscript0 : JValue → Except PyExc JValue
  | .arr (x :: _) => .ok x
  | .arr [] => .error .indexError
  | .str s => if s = "" then .error .indexError else .ok (.str (String.singleton s.front))
  | .obj _ => .error .keyError
  | _ => .error .typeError

/-- First-match lookup in a parameter dict. -/
def dictLookup : List (String × PValue) → String → Option PValue
  | [], _ => none
  | (k, v) :: rest, key => if k = key then some v else dictLookup rest key

/-- Python in-place dict assignment `d[k] = v`: overwrite the existing
entry in place, else append (insertion order preserved). -/
def dictSet : List (String × PValue) → String → PValue → List (String × PValue)
  | [], k, v => [(k, v)]
  | (k0, v0) :: rest, k, v =>
    if k0 = k then (k, v) :: rest else (k0, v0) :: dictSet rest k v

/-- Connection profile, `CpanelConfig` from `src/config.py` (defaults:
port 2083, ssl on). -/
structure CpanelConfig where
  hostname : String
  username : String
  api_token : String
  port : Nat := 2083
  ssl : Bool := true
deriving DecidableEq, Repr

/-- Validity invariant enforced by the `CpanelConfig` field validators:
hostname, username, api_token non-empty after trimming; port in
[1, 65535]. -/
def ValidProfile (c : CpanelConfig) : Prop :=
  ¬ c.hostname.toList.all Char.isWhitespace ∧
  ¬ c.username.toList.all Char.isWhitespace ∧
  ¬ c.api_token.toList.all Char.isWhitespace ∧
  1 ≤ c.port ∧ c.port ≤ 65535

instance (c : CpanelConfig) : Decidable (ValidProfile c) := by
  unfold ValidProfile; infer_instance

/-- The client state computed by `CpanelAPI.__init__`. -/
structure CpanelAPI where
  config : CpanelConfig
  base_url : String
  whm_base_url : String
  headers : List (String × String)
  whm_headers : List (String × String)
deriving DecidableEq, Repr

/-- `CpanelAPI.__init__`: derive the two base URLs and the two
authorization header sets from the configuration. -/
def CpanelAPI.init (config : CpanelConfig) : CpanelAPI :=
  let protocol := if config.ssl then "https" else "http"
  { config := config
    base_url := protocol ++ "://" ++ config.hostname ++ ":" ++ toString config.port
    whm_base_url := protocol ++ "://" ++ config.hostname ++ ":2087"
    headers := [("Authorization", "cpanel " ++ config.username ++ ":" ++ config.api_token),
                ("Content-Type", "application/json")]
    whm_headers := [("Authorization", "whm root:" ++ config.api_token),
                    ("Content-Type", "application/json")] }

/-- The single HTTP request a client method issues: method, URL, headers,
query parameters, and whether TLS certificates are verified. -/
structure Request where
  method : String := "GET"
  url : String
  headers : List (String × String)
  params : List (String × PValue)
  verify : Bool := true
deriving DecidableEq, Repr

/-- Request built by `CpanelAPI.make_call` (UAPI surface):
`GET {base_url}/execute/{module}/{function}` with the account headers. -/
def make_call_request (api : CpanelAPI) (module function : String)
    (params : List (String × PValue)) : Request :=
  { url := api.base_url ++ "/execute/" ++ module ++ "/" ++ function
    headers := api.headers
    params := params
    verify := true }

/-- Response handling of `CpanelAPI.make_call`, lines 66-82 of
`src/cpanel.py`. `raise_for_status` raises `httpx.HTTPStatusError` on a
non-2xx status; that class is not a subclass of `httpx.RequestError`,
so the `except httpx.RequestError` handler does not convert it and it
escapes as `PyExc.httpStatusError`. On a dict body with `status == 0`
the code evaluates `result.get("errors", ["Unknown API error"])[0]`. -/
def make_call_handle (resp : HttpResult) : Except PyExc JValue :=
  match resp with
  | .requestError cause => .error (.cpanelAPIError ("Request failed: " ++ cause))
  | .response status body =>
    if status < 200 ∨ 300 ≤ status then .error (.httpStatusError status)
    else match body with
      | .error e => .error (.cpanelAPIError ("Invalid JSON response from cPanel API: " ++ e))
      | .ok result =>
        match result with
        | .obj fields =>
          if pyEqZero (jGet fields "status") then
            match pySubscript0 ((jGet fields "errors").getD (.arr [.str "Unknown API error"])) with
            | .ok e => .error (.cpanelAPIError ("cPanel API error: " ++ pyStr e))
            | .error ex => .error ex
          else .ok result
        | other => .ok other

/-- `CpanelAPI.make_call`: build the UAPI request, consume the wire
outcome for it. -/
def make_call (api : CpanelAPI) (module function : String)
    (params : List (String × PValue)) (wire : Request → HttpResult) :
    Except PyExc JValue :=
  make_call_handle (wire (make_call_request api module function params))

/-- Request built by `CpanelAPI.make_whm_call` (WHM surface): the caller's
parameter dict is mutated in place by `params["api.version"] = 1` before
`GET {whm_base_url}/json-api/{function}` is issued with the WHM headers
and certificate verification disabled. -/
def make_whm_call_request (api : CpanelAPI) (function : String)
    (params : List (String × PValue)) : Request :=
  { url := api.whm_base_url ++ "/json-api/" ++ function
    headers := api.whm_headers
    params := dictSet params "api.version" (.int 1)
    verify := false }

/-- Response handling of `CpanelAPI.make_whm_call`, lines 109-133 of
`src/cpanel.py`: same transport handling as the UAPI surface, but a dict
body is an error when `result == 0` or `status == 0`, with the message
`result.get("reason", result.get("statusmsg", "Unknown WHM API error"))`. -/
def make_whm_call_handle (resp : HttpResult) : Except PyExc JValue :=
  match resp with
  | .requestError cause => .error (.cpanelAPIError ("WHM API request failed: " ++ cause))
  | .response status body =>
    if status < 200 ∨ 300 ≤ status then .error (.httpStatusError status)
    else match body with
      | .error e => .error (.cpanelAPIError ("Invalid JSON response from WHM API: " ++ e))
      | .ok result =>
        match result with
        | .obj fields =>
          if pyEqZero (jGet fields "result") || pyEqZero (jGet fields "status") then
            let msg := match jGet fields "reason" with
              | some v => pyStr v
              | none => match jGet fields "statusmsg" with
                | some v => pyStr v
                | none => "Unknown WHM API error"
            .error (.cpanelAPIError ("WHM API error: " ++ msg))
          else .ok result
        | other => .ok other

/-- `CpanelAPI.make_whm_call`: build the WHM request (mutating the
parameter dict), consume the wire outcome for it. -/
def make_whm_call (api : CpanelAPI) (function : String)
    (params : List (String × PValue)) (wire : Request → HttpResult) :
    Except PyExc JValue :=
  make_whm_call_handle (wire (make_whm_call_request api function params))

/-- Python `str.split` on a single-character separator, on the character
list of the string. `splitCh c l` always returns at least one part. -/
def splitCh (c : Char) : List Char → List (List Char)
  | [] => [[]]
  | x :: xs =>
    if x = c then [] :: splitCh c xs
    else (x :: (splitCh c xs).headI) :: (splitCh c xs).tail

/-- `CpanelAPI.split_email`: `ValueError` unless `email.split("@")` has
exactly two parts, both non-empty. -/
def split_email (email : String) : Except PyExc (String × String) :=
  if ¬ email.toList.contains '@' then
    .error (.valueError ("Invalid email format: " ++ email))
  else match splitCh '@' email.toList with
    | [u, d] =>
      if u = [] ∨ d = [] then .error (.valueError ("Invalid email format: " ++ email))
      else .ok (String.mk u, String.mk d)
    | _ => .error (.valueError ("Invalid email format: " ++ email))

/-- Python `str.upper()` (the client only uppercases ASCII identifiers). -/
def pyUpper (s : String) : String := String.mk (s.toList.map Char.toUpper)

/-- Python `str.strip()` (the client only strips ASCII whitespace),
computed on the character list so that it evaluates by reduction. -/
def stripList (l : List Char) : List Char :=
  ((l.dropWhile Char.isWhitespace).reverse.dropWhile Char.isWhitespace).reverse

/-- Python `str.strip()` on strings. -/
def pyStrip (s : String) : String := String.mk (stripList s.toList)

/-- `CpanelAPI.VALID_DNS_RECORD_TYPES`. -/
def VALID_DNS_RECORD_TYPES : List String :=
  ["A", "AAAA", "CNAME", "MX", "TXT", "NS", "PTR", "SRV", "CAA", "TLSA"]

/-- `CpanelAPI._validate_dns_record_type`: `ValueError` when the
uppercased type is not in the allow-list (message lists the valid types
sorted, as `", ".join(sorted(...))` does). -/
def _validate_dns_record_type (record_type : String) : Except PyExc Unit :=
  if ¬ VALID_DNS_RECORD_TYPES.contains (pyUpper record_type) then
    .error (.valueError ("Invalid DNS record type '" ++ record_type ++
      "'. Valid types: A, AAAA, CAA, CNAME, MX, NS, PTR, SRV, TLSA, TXT"))
  else .ok ()

/-- Request built by `CpanelAPI.add_email_account`: split the address,
then `Email/add_pop` with domain, local part as "email", password,
quota. -/
def add_email_account_request (api : CpanelAPI) (email password : String)
    (quota : Int) : Except PyExc Request :=
  match split_email email with
  | .error e => .error e
  | .ok (username, domain) =>
    .ok (make_call_request api "Email" "add_pop"
      [("domain", .str domain), ("email", .str username),
       ("password", .str password), ("quota", .int quota)])

/-- `CpanelAPI.add_email_account`: validation, then one UAPI call. -/
def add_email_account (api : CpanelAPI) (email password : String) (quota : Int)
    (wire : Request → HttpResult) : Except PyExc JValue :=
  match add_email_account_request api email password quota with
  | .error e => .error e
  | .ok req => make_call_handle (wire req)

/-- Request built by `CpanelAPI.create_email_forwarder`: split the source
address, then `Email/add_forwarder` with username, domain,
`fwdopt="fwd"`, `fwdemail=destination`. -/
def create_email_forwarder_request (api : CpanelAPI) (email destination : String) :
    Except PyExc Request :=
  match split_email email with
  | .error e => .error e
  | .ok (username, domain) =>
    .ok (make_call_request api "Email" "add_forwarder"
      [("username", .str username), ("domain", .str domain),
       ("fwdopt", .str "fwd"), ("fwdemail", .str destination)])

/-- `CpanelAPI.create_email_forwarder`: validation, then one UAPI call. -/
def create_email_forwarder (api : CpanelAPI) (email destination : String)
    (wire : Request → HttpResult) : Except PyExc JValue :=
  match create_email_forwarder_request api email destination with
  | .error e => .error e
  | .ok req => make_call_handle (wire req)

/-- Request built by `CpanelAPI.delete_email_forwarder`: no validation and
no splitting — both addresses are forwarded verbatim as
`{address, forwarder}` to `Email/delete_forwarder`. -/
def delete_email_forwarder_request (api : CpanelAPI) (email destination : String) :
    Request :=
  make_call_request api "Email" "delete_forwarder"
    [("address", .str email), ("forwarder", .str destination)]

/-- `CpanelAPI.delete_email_forwarder`: one UAPI call, no validation. -/
def delete_email_forwarder (api : CpanelAPI) (email destination : String)
    (wire : Request → HttpResult) : Except PyExc JValue :=
  make_call_handle (wire (delete_email_forwarder_request api email destination))

/-- Request built by `CpanelAPI.add_dns_record`, lines 355-408: required
fields non-empty, strip/uppercase normalization, type allow-list check,
`ttl ≥ 1`, class in {IN, CH, HS}; then `addzonerecord` on the WHM
surface. -/
def add_dns_record_request (api : CpanelAPI) (domain name record_type address : String)
    (ttl : Int) (record_class : String) : Except PyExc Request :=
  if domain = "" ∨ name = "" ∨ record_type = "" ∨ address = "" then
    .error (.valueError "Domain, name, record_type, and address are required")
  else
    let domain := pyStrip domain
    let name := pyStrip name
    let record_type := pyStrip (pyUpper record_type)
    let address := pyStrip address
    let record_class := pyStrip (pyUpper record_class)
    match _validate_dns_record_type record_type with
    | .error e => .error e
    | .ok _ =>
      if ttl < 1 then .error (.valueError "TTL must be greater than 0")
      else if ¬ ["IN", "CH", "HS"].contains record_class then
        .error (.valueError "Invalid DNS class. Valid classes: IN, CH, HS")
      else .ok (make_whm_call_request api "addzonerecord"
        [("domain", .str domain), ("name", .str name),
         ("class", .str record_class), ("ttl", .int ttl),
         ("type", .str record_type), ("address", .str address)])

/-- `CpanelAPI.add_dns_record`: validation, then one WHM call. -/
def add_dns_record (api : CpanelAPI) (domain name record_type address : String)
    (ttl : Int) (record_class : String) (wire : Request → HttpResult) :
    Except PyExc JValue :=
  match add_dns_record_request api domain name record_type address ttl record_class with
  | .error e => .error e
  | .ok req => make_whm_call_handle (wire req)

/-- Request built by `CpanelAPI.delete_dns_record`: domain non-empty after
strip, `line ≥ 1`; then `removezonerecord` on the WHM surface. -/
def delete_dns_record_request (api : CpanelAPI) (domain : String) (line : Int) :
    Except PyExc Request :=
  if domain = "" ∨ pyStrip domain = "" then
    .error (.valueError "Domain cannot be empty")
  else if line < 1 then
    .error (.valueError "Line number must be greater than 0")
  else .ok (make_whm_call_request api "removezonerecord"
    [("domain", .str (pyStrip domain)), ("line", .int line)])

/-- `CpanelAPI.delete_dns_record`: validation, then one WHM call. -/
def delete_dns_record (api : CpanelAPI) (domain : String) (line : Int)
    (wire : Request → HttpResult) : Except PyExc JValue :=
  match delete_dns_record_request api domain line with
  | .error e => .error e
  | .ok req => make_whm_call_handle (wire req)

/-- The connection profile of the spec's end-to-end scenarios: host
`host.example.com`, account `acct`, token `tok`, default port and
encryption. -/
def exampleConfig : CpanelConfig :=
  { hostname := "host.example.com", username := "acct", api_token := "tok" }

/-- Client constructed from `exampleConfig`. -/
def exampleApi : CpanelAPI := CpanelAPI.init exampleConfig

/-- The request the spec's add-mailbox scenario expects. -/
def joeAddPopRequest : Request :=
  { method := "GET"
    url := "https://host.example.com:2083/execute/Email/add_pop"
    headers := [("Authorization", "cpanel acct:tok"), ("Content-Type", "application/json")]
    params := [("domain", PValue.str "example.com"), ("email", PValue.str "joe"),
               ("password", PValue.str "p@ss"), ("quota", PValue.int 100)]
    verify := true }

/-- The request the spec's delete-record scenario expects. -/
def deleteLine3Request : Request :=
  { method := "GET"
    url := "https://host.example.com:2087/json-api/removezonerecord"
    headers := [("Authorization", "whm root:tok"), ("Content-Type", "application/json")]
    params := [("domain", PValue.str "example.com"), ("line", PValue.int 3),
               ("api.version", PValue.int 1)]
    verify := false }

theorem splitCh_ne_nil (c : Char) (l : List Char) : splitCh c l ≠ [] := by
  cases l with
  | nil => simp [splitCh]
  | cons x xs => simp only [splitCh]; split <;> simp

theorem splitCh_cons_pos (c : Char) (xs : List Char) :
    splitCh c (c :: xs) = [] :: splitCh c xs := by
  simp [splitCh]

theorem splitCh_cons_neg (c x : Char) (xs : List Char) (hx : ¬ (x = c)) :
    splitCh c (x :: xs) = (x :: (splitCh c xs).headI) :: (splitCh c xs).tail := by
  simp [splitCh, if_neg hx]

theorem splitCh_of_not_mem (c : Char) (l : List Char) (h : c ∉ l) : splitCh c l = [l] := by
  induction l with
  | nil => rfl
  | cons x xs ih =>
    have hx : ¬ (x = c) := fun e => h (e ▸ List.mem_cons_self x xs)
    have hxs : c ∉ xs := fun e => h (List.mem_cons_of_mem _ e)
    simp [splitCh_cons_neg c x xs hx, ih hxs]

theorem splitCh_eq_single (c : Char) (l a : List Char) (h : splitCh c l = [a]) :
    l = a ∧ c ∉ a := by
  induction l generalizing a with
  | nil =>
    simp only [splitCh, List.cons.injEq] at h
    obtain ⟨h1, -⟩ := h
    subst h1
    simp
  | cons x xs ih =>
    by_cases hx : x = c
    · subst hx
      rw [splitCh_cons_pos] at h
      simp only [List.cons.injEq] at h
      exact absurd h.2 (splitCh_ne_nil x xs)
    · rw [splitCh_cons_neg c x xs hx] at h
      obtain ⟨hd, tl, hr⟩ : ∃ hd tl, splitCh c xs = hd :: tl := by
        cases hsp : splitCh c xs with
        | nil => exact absurd hsp (splitCh_ne_nil c xs)
        | cons p q => exact ⟨p, q, rfl⟩
      rw [hr] at h
      simp only [List.headI, List.tail, List.cons.injEq] at h
      obtain ⟨ha, htl⟩ := h
      obtain ⟨hxs, hmem⟩ := ih hd (by rw [hr, htl])
      subst hxs
      constructor
      · rw [← ha]
      · rw [← ha]
        intro hc
        rcases List.mem_cons.mp hc with h1 | h2
        · exact hx h1.symm
        · exact hmem h2

theorem splitCh_eq_pair (c : Char) (l a b : List Char) (h : splitCh c l = [a, b]) :
    l = a ++ c :: b ∧ c ∉ a ∧ c ∉ b := by
  induction l generalizing a with
  | nil => simp [splitCh] at h
  | cons x xs ih =>
    by_cases hx : x = c
    · subst hx
      rw [splitCh_cons_pos] at h
      simp only [List.cons.injEq] at h
      obtain ⟨ha, hrest⟩ := h
      obtain ⟨hxs, hmem⟩ := splitCh_eq_single x xs b hrest
      subst hxs
      subst ha
      exact ⟨rfl, by simp, hmem⟩
    · rw [splitCh_cons_neg c x xs hx] at h
      obtain ⟨hd, tl, hr⟩ : ∃ hd tl, splitCh c xs = hd :: tl := by
        cases hsp : splitCh c xs with
        | nil => exact absurd hsp (splitCh_ne_nil c xs)
        | cons p q => exact ⟨p, q, rfl⟩
      rw [hr] at h
      simp only [List.headI, List.tail, List.cons.injEq] at h
      obtain ⟨ha, htl⟩ := h
      obtain ⟨hxs, hhd, hb⟩ := ih hd (by rw [hr, htl])
      subst hxs
      subst ha
      refine ⟨by simp, ?_, hb⟩
      intro hc
      rcases List.mem_cons.mp hc with h1 | h2
      · exact hx h1.symm
      · exact hhd h2

theorem splitCh_pair_of (c : Char) (a b : List Char) (ha : c ∉ a) (hb : c ∉ b) :
    splitCh c (a ++ c :: b) = [a, b] := by
  induction a with
  | nil => simp [splitCh_cons_pos, splitCh_of_not_mem c b hb]
  | cons x a' ih =>
    have hx : ¬ (x = c) := fun e => ha (e ▸ List.mem_cons_self x a')
    have ha' : c ∉ a' := fun e => ha (List.mem_cons_of_mem _ e)
    rw [List.cons_append, splitCh_cons_neg c x _ hx, ih ha']
    simp

theorem split_email_eq_ok_iff (s u d : String) :
    split_email s = Except.ok (u, d) ↔
      splitCh '@' s.toList = [u.toList, d.toList] ∧ u.toList ≠ [] ∧ d.toList ≠ [] := by
  simp only [split_email]
  split
  · rename_i hc
    constructor
    · intro h
      exact Except.noConfusion h
    · rintro ⟨hsp, -, -⟩
      have hnm : '@' ∉ s.toList := by
        intro hm
        exact hc (by simpa using hm)
      rw [splitCh_of_not_mem '@' s.toList hnm] at hsp
      exact List.noConfusion (List.cons.inj hsp).2
  · rename_i hc
    split
    · rename_i a b heq
      split
      · rename_i hempty
        constructor
        · intro h
          exact Except.noConfusion h
        · rintro ⟨hsp, hu, hd⟩
          rw [heq] at hsp
          obtain ⟨h1, h2⟩ := List.cons.inj hsp
          obtain ⟨h3, -⟩ := List.cons.inj h2
          rcases hempty with he | he
          · exact (hu (by rw [← h1, he])).elim
          · exact (hd (by rw [← h3, he])).elim
      · rename_i hne
        constructor
        · intro h
          obtain ⟨h1, h2⟩ := Prod.mk.injEq .. ▸ (Except.ok.inj h)
          constructor
          · rw [heq, ← h1, ← h2]
            rfl
          · constructor
            · intro he
              exact hne (Or.inl (by rw [← h1] at he; exact he))
            · intro he
              exact hne (Or.inr (by rw [← h2] at he; exact he))
        · rintro ⟨hsp, hu, hd⟩
          rw [heq] at hsp
          obtain ⟨h1, h2⟩ := List.cons.inj hsp
          obtain ⟨h3, -⟩ := List.cons.inj h2
          have hus : u = String.mk a := by
            cases u
            simp only [String.toList] at h1
            rw [h1]
          have hds : d = String.mk b := by
            cases d
            simp only [String.toList] at h3
            rw [h3]
          rw [hus, hds]
    · rename_i hno
      constructor
      · intro h
        exact Except.noConfusion h
      · rintro ⟨hsp, -, -⟩
        exact (hno u.toList d.toList hsp).elim

theorem split_email_ok_or_error (s : String) :
    (∃ p, split_email s = Except.ok p) ∨
      split_email s = Except.error (PyExc.valueError ("Invalid email format: " ++ s)) := by
  simp only [split_email]
  split
  · exact Or.inr rfl
  · split
    · split
      · exact Or.inr rfl
      · exact Or.inl ⟨_, rfl⟩
    · exact Or.inr rfl

theorem dictLookup_dictSet_self (d : List (String × PValue)) (k : String) (v : PValue) :
    dictLookup (dictSet d k v) k = some v := by
  induction d with
  | nil => simp [dictSet, dictLookup]
  | cons kv rest ih =>
    obtain ⟨k0, v0⟩ := kv
    by_cases hk : k0 = k
    · simp [dictSet, dictLookup, hk]
    · simp [dictSet, dictLookup, hk, ih]

theorem pySubscript0_ne_valueError (v : JValue) (m : String) :
    pySubscript0 v ≠ Except.error (PyExc.valueError m) := by
  cases v with
  | arr elems => cases elems <;> simp [pySubscript0]
  | str s => by_cases h : s = "" <;> simp [pySubscript0, h]
  | null => simp [pySubscript0]
  | bool b => simp [pySubscript0]
  | num n => simp [pySubscript0]
  | obj fields => simp [pySubscript0]

theorem make_call_handle_ne_valueError (resp : HttpResult) (m : String) :
    make_call_handle resp ≠ Except.error (PyExc.valueError m) := by
  cases resp with
  | requestError cause => simp [make_call_handle]
  | response status body =>
    by_cases hs : status < 200 ∨ 300 ≤ status
    · simp [make_call_handle, hs]
    · cases body with
      | error e => simp [make_call_handle, hs]
      | ok result =>
        cases result with
        | obj fields =>
          by_cases hz : pyEqZero (jGet fields "status") = true
          · cases hp : pySubscript0 ((jGet fields "errors").getD (JValue.arr [JValue.str "Unknown API error"])) with
            | ok e => simp [make_call_handle, hs, hz, hp]
            | error ex =>
              simp only [make_call_handle, if_neg hs, hz, if_true, hp]
              intro h
              injection h with h2
              exact pySubscript0_ne_valueError _ m (by rw [hp, h2])
          · simp [make_call_handle, hs, hz]
        | null => simp [make_call_handle, hs]
        | bool b => simp [make_call_handle, hs]
        | num n => simp [make_call_handle, hs]
        | str s => simp [make_call_handle, hs]
        | arr elems => simp [make_call_handle, hs]

/-- Claim C1 (code bug): on the account surface, a JSON mapping with
`status == 0` raises `CpanelAPIError` with the first element of a
non-empty `errors` list, and with the generic fallback when `errors` is
absent — but when `errors` is present and EMPTY, the subscript
`result.get("errors", ["Unknown API error"])[0]` raises an uncaught
`IndexError` instead of the claimed generic-fallback `CpanelAPIError`. -/
theorem claim1_empty_errors_uncaught_index_error :
    make_call exampleApi "Email" "list_pops" [("domain", PValue.str "example.com")]
      (fun _ => HttpResult.response 200 (Except.ok (JValue.obj
        [("status", JValue.num 0), ("errors", JValue.arr [JValue.str "quota exceeded"])])))
      = Except.error (PyExc.cpanelAPIError "cPanel API error: quota exceeded")
  ∧ make_call exampleApi "Email" "list_pops" [("domain", PValue.str "example.com")]
      (fun _ => HttpResult.response 200 (Except.ok (JValue.obj [("status", JValue.num 0)])))
      = Except.error (PyExc.cpanelAPIError "cPanel API error: Unknown API error")
  ∧ make_call exampleApi "Email" "list_pops" [("domain", PValue.str "example.com")]
      (fun _ => HttpResult.response 200 (Except.ok (JValue.obj
        [("status", JValue.num 0), ("errors", JValue.arr [])])))
      = Except.error PyExc.indexError
  ∧ ∀ m, make_call exampleApi "Email" "list_pops" [("domain", PValue.str "example.com")]
      (fun _ => HttpResult.response 200 (Except.ok (JValue.obj
        [("status", JValue.num 0), ("errors", JValue.arr [])])))
      ≠ Except.error (PyExc.cpanelAPIError m) := by
  refine ⟨rfl, rfl, rfl, ?_⟩
  intro m h
  rw [show make_call exampleApi "Email" "list_pops" [("domain", PValue.str "example.com")]
      (fun _ => HttpResult.response 200 (Except.ok (JValue.obj
        [("status", JValue.num 0), ("errors", JValue.arr [])])))
      = Except.error PyExc.indexError from rfl] at h
  simp at h

/-- Claim C2 (code bug): a non-2xx HTTP status makes
`response.raise_for_status()` raise `httpx.HTTPStatusError`, which is a
sibling of `httpx.RequestError` in httpx's exception hierarchy; neither
`except httpx.RequestError` nor `except ValueError` catches it, so on
both surfaces it escapes unclassified instead of becoming
`CpanelAPIError`. -/
theorem claim2_non2xx_escapes_unclassified :
    make_call exampleApi "Email" "list_pops" [("domain", PValue.str "example.com")]
      (fun _ => HttpResult.response 500 (Except.error "body is an HTML error page"))
      = Except.error (PyExc.httpStatusError 500)
  ∧ make_whm_call exampleApi "dumpzone" [("domain", PValue.str "example.com")]
      (fun _ => HttpResult.response 500 (Except.error "body is an HTML error page"))
      = Except.error (PyExc.httpStatusError 500)
  ∧ ∀ m, PyExc.httpStatusError 500 ≠ PyExc.cpanelAPIError m := by
  refine ⟨rfl, rfl, ?_⟩
  intro m h
  simp at h

/-- Claim C3: for every valid connection profile, the account base URL is
`scheme://host:port` with the configured port and the administrative
base URL is `scheme://host:2087`, with scheme `https` iff SSL is
enabled; the administrative URL is independent of the configured port. -/
theorem claim3_base_urls (c : CpanelConfig) (_h : ValidProfile c) :
    (CpanelAPI.init c).base_url =
      (if c.ssl then "https" else "http") ++ "://" ++ c.hostname ++ ":" ++ toString c.port
  ∧ (CpanelAPI.init c).whm_base_url =
      (if c.ssl then "https" else "http") ++ "://" ++ c.hostname ++ ":2087"
  ∧ ∀ p : Nat, (CpanelAPI.init { c with port := p }).whm_base_url
      = (CpanelAPI.init c).whm_base_url :=
  ⟨rfl, rfl, fun _ => rfl⟩

/-- Witness for C3 at the concrete example profile. -/
theorem claim3_base_urls_witness :
    ValidProfile exampleConfig ∧
    (CpanelAPI.init exampleConfig).base_url = "https://host.example.com:2083" ∧
    (CpanelAPI.init exampleConfig).whm_base_url = "https://host.example.com:2087" := by
  refine ⟨by decide, ?_, ?_⟩
  · exact (claim3_base_urls exampleConfig (by decide)).1.trans (by decide)
  · exact (claim3_base_urls exampleConfig (by decide)).2.1.trans (by decide)

/-- Claim C4: with the example profile (host `host.example.com`, account
`acct`, token `tok`, default port 2083 and SSL), adding mailbox
`joe@example.com` with password `p@ss` and quota 100 builds exactly one
GET request to `https://host.example.com:2083/execute/Email/add_pop`
with parameters domain/email/password/quota and the
`Authorization: cpanel acct:tok` header, and the call consumes exactly
the response to that request. -/
theorem claim4_add_mailbox_request :
    add_email_account_request exampleApi "joe@example.com" "p@ss" 100
      = Except.ok joeAddPopRequest
  ∧ ∀ wire : Request → HttpResult,
      add_email_account exampleApi "joe@example.com" "p@ss" 100 wire
        = make_call_handle (wire joeAddPopRequest) :=
  ⟨rfl, fun _ => rfl⟩

/-- Claim C5: `split_email` succeeds returning the (local-part, domain)
pair iff the address contains exactly one `@` (equivalently, decomposes
as `l ++ '@' :: r` with `@`-free sides) and both parts are non-empty,
and every failure is a `ValueError` (the InvalidFormat classification);
the spec's four examples behave as stated. -/
theorem claim5_split_email :
    (∀ s : String, (∃ p, split_email s = Except.ok p) ↔
      ∃ l r : List Char, s.toList = l ++ '@' :: r ∧ '@' ∉ l ∧ '@' ∉ r ∧ l ≠ [] ∧ r ≠ [])
  ∧ (∀ s u d, split_email s = Except.ok (u, d) →
      s.toList = u.toList ++ '@' :: d.toList ∧ '@' ∉ u.toList ∧ '@' ∉ d.toList ∧
      u ≠ "" ∧ d ≠ "")
  ∧ (∀ s : String, (∃ p, split_email s = Except.ok p) ∨
      split_email s = Except.error (PyExc.valueError ("Invalid email format: " ++ s)))
  ∧ split_email "user@example.com" = Except.ok ("user", "example.com")
  ∧ split_email "invalid" = Except.error (PyExc.valueError "Invalid email format: invalid")
  ∧ split_email "a@b@c" = Except.error (PyExc.valueError "Invalid email format: a@b@c")
  ∧ split_email "@b.com" = Except.error (PyExc.valueError "Invalid email format: @b.com") := by
  refine ⟨?_, ?_, split_email_ok_or_error, rfl, rfl, rfl, rfl⟩
  · intro s
    constructor
    · rintro ⟨⟨u, d⟩, h⟩
      obtain ⟨hsp, hu, hd⟩ := (split_email_eq_ok_iff s u d).mp h
      obtain ⟨hdec, hnl, hnr⟩ := splitCh_eq_pair '@' s.toList u.toList d.toList hsp
      exact ⟨u.toList, d.toList, hdec, hnl, hnr, hu, hd⟩
    · rintro ⟨l, r, hs, hl, hr, hnl, hnr⟩
      refine ⟨(String.mk l, String.mk r), (split_email_eq_ok_iff s _ _).mpr ?_⟩
      refine ⟨?_, hnl, hnr⟩
      rw [hs]
      exact splitCh_pair_of '@' l r hl hr
  · intro s u d h
    obtain ⟨hsp, hu, hd⟩ := (split_email_eq_ok_iff s u d).mp h
    obtain ⟨hdec, hnl, hnr⟩ := splitCh_eq_pair '@' s.toList u.toList d.toList hsp
    refine ⟨hdec, hnl, hnr, ?_, ?_⟩
    · intro e
      exact hu (by rw [e]; rfl)
    · intro e
      exact hd (by rw [e]; rfl)

/-- Witness for C5 at the concrete address `user@example.com`. -/
theorem claim5_split_email_witness :
    "user@example.com".toList = "user".toList ++ '@' :: "example.com".toList ∧
    '@' ∉ "user".toList ∧ '@' ∉ "example.com".toList ∧
    "user" ≠ "" ∧ "example.com" ≠ "" :=
  claim5_split_email.2.1 "user@example.com" "user" "example.com" rfl

/-- Claim C8: every administrative-surface request carries
`api.version = 1` regardless of caller-supplied parameters, and
`delete_dns_record("example.com", 3)` builds exactly the GET request
`https://host.example.com:2087/json-api/removezonerecord` with
parameters domain/line/api.version and the `whm root:tok` header. -/
theorem claim8_api_version_injection :
    (∀ (api : CpanelAPI) (fn : String) (params : List (String × PValue)),
      dictLookup (make_whm_call_request api fn params).params "api.version"
        = some (PValue.int 1))
  ∧ delete_dns_record_request exampleApi "example.com" 3
      = Except.ok deleteLine3Request
  ∧ ∀ wire : Request → HttpResult,
      delete_dns_record exampleApi "example.com" 3 wire
        = make_whm_call_handle (wire deleteLine3Request) :=
  ⟨fun _ _ params => dictLookup_dictSet_self params "api.version" (PValue.int 1),
   rfl, fun _ => rfl⟩

/-- Claim C9 counterexample: a caller that already passes
`{"api.version": 1}` has its mapping content unchanged by the call, so
the claim's universal "the caller's mapping differs from what was
passed in" is false as stated. -/
theorem claim9_counterexample :
    (make_whm_call_request exampleApi "dumpzone" [("api.version", PValue.int 1)]).params
      = [("api.version", PValue.int 1)] := rfl

/-- Claim C9 (amended): `make_whm_call` mutates the caller-owned mapping
in place, setting `api.version` to 1 (overwriting in place or
appending); the mapping after the call differs from what was passed in
whenever it did not already map `api.version` to 1. -/
theorem claim9_param_mutation (api : CpanelAPI) (fn : String)
    (params : List (String × PValue)) :
    (make_whm_call_request api fn params).params = dictSet params "api.version" (PValue.int 1)
  ∧ dictLookup (make_whm_call_request api fn params).params "api.version"
      = some (PValue.int 1)
  ∧ (dictLookup params "api.version" ≠ some (PValue.int 1) →
      (make_whm_call_request api fn params).params ≠ params) := by
  refine ⟨rfl, dictLookup_dictSet_self params "api.version" (PValue.int 1), ?_⟩
  intro hne h
  apply hne
  calc dictLookup params "api.version"
      = dictLookup (make_whm_call_request api fn params).params "api.version" := by rw [h]
    _ = some (PValue.int 1) := dictLookup_dictSet_self params "api.version" (PValue.int 1)

/-- Witness for C9 at a mapping not containing `api.version`. -/
theorem claim9_param_mutation_witness :
    (make_whm_call_request exampleApi "dumpzone"
      [("domain", PValue.str "example.com")]).params
      ≠ [("domain", PValue.str "example.com")] :=
  (claim9_param_mutation exampleApi "dumpzone"
    [("domain", PValue.str "example.com")]).2.2 (by decide)

/-- Claim C10: `delete_email_forwarder` validates neither address — for
every pair of strings it forwards both verbatim as
`{address, forwarder}`, never fails with the InvalidFormat
(`ValueError`) classification for any wire outcome, and (in contrast)
`create_email_forwarder` on the `@`-less source `invalid` fails with
`ValueError` before any network call. -/
theorem claim10_delete_forwarder_no_validation :
    (∀ (api : CpanelAPI) (email destination : String),
      delete_email_forwarder_request api email destination
        = make_call_request api "Email" "delete_forwarder"
            [("address", PValue.str email), ("forwarder", PValue.str destination)])
  ∧ (∀ (api : CpanelAPI) (email destination : String) (wire : Request → HttpResult)
        (m : String),
      delete_email_forwarder api email destination wire
        ≠ Except.error (PyExc.valueError m))
  ∧ (∀ wire : Request → HttpResult,
      delete_email_forwarder exampleApi "invalid" "also invalid" wire
        = make_call_handle (wire (make_call_request exampleApi "Email" "delete_forwarder"
            [("address", PValue.str "invalid"), ("forwarder", PValue.str "also invalid")])))
  ∧ (∀ (destination : String) (wire : Request → HttpResult),
      create_email_forwarder exampleApi "invalid" destination wire
        = Except.error (PyExc.valueError "Invalid email format: invalid")) :=
  ⟨fun _ _ _ => rfl,
   fun _ email destination wire m =>
     make_call_handle_ne_valueError (wire (delete_email_forwarder_request _ email destination)) m,
   fun _ => rfl,
   fun _ _ => rfl⟩

theorem make_whm_call_handle_obj (fields : List (String × JValue)) :
    make_whm_call_handle (HttpResult.response 200 (Except.ok (JValue.obj fields))) =
      (if pyEqZero (jGet fields "result") || pyEqZero (jGet fields "status") then
        Except.error (PyExc.cpanelAPIError ("WHM API error: " ++
          (match jGet fields "reason" with
           | some v => pyStr v
           | none => match jGet fields "statusmsg" with
             | some v => pyStr v
             | none => "Unknown WHM API error")))
      else Except.ok (JValue.obj fields)) := rfl

/-- Claim C6: on the administrative surface, a JSON-mapping response
fails with the Remote API error classification (`CpanelAPIError`) iff
`result == 0` or `status == 0` (Python `==`, so `False` also compares
equal to 0); the message comes from `reason` when present, else
`statusmsg`, else the generic fallback; the spec's concrete example
yields message `zone not found`. -/
theorem claim6_whm_error_classification (fields : List (String × JValue)) :
    ((∃ m, make_whm_call_handle (HttpResult.response 200 (Except.ok (JValue.obj fields)))
        = Except.error (PyExc.cpanelAPIError m))
      ↔ (pyEqZero (jGet fields "result") = true ∨ pyEqZero (jGet fields "status") = true))
  ∧ (∀ r : String,
      (pyEqZero (jGet fields "result") = true ∨ pyEqZero (jGet fields "status") = true) →
      jGet fields "reason" = some (JValue.str r) →
      make_whm_call_handle (HttpResult.response 200 (Except.ok (JValue.obj fields)))
        = Except.error (PyExc.cpanelAPIError ("WHM API error: " ++ r)))
  ∧ (∀ m : String,
      (pyEqZero (jGet fields "result") = true ∨ pyEqZero (jGet fields "status") = true) →
      jGet fields "reason" = none →
      jGet fields "statusmsg" = some (JValue.str m) →
      make_whm_call_handle (HttpResult.response 200 (Except.ok (JValue.obj fields)))
        = Except.error (PyExc.cpanelAPIError ("WHM API error: " ++ m)))
  ∧ ((pyEqZero (jGet fields "result") = true ∨ pyEqZero (jGet fields "status") = true) →
      jGet fields "reason" = none →
      jGet fields "statusmsg" = none →
      make_whm_call_handle (HttpResult.response 200 (Except.ok (JValue.obj fields)))
        = Except.error (PyExc.cpanelAPIError "WHM API error: Unknown WHM API error"))
  ∧ make_whm_call exampleApi "dumpzone" [("domain", PValue.str "example.com")]
      (fun _ => HttpResult.response 200 (Except.ok (JValue.obj
        [("result", JValue.num 0), ("reason", JValue.str "zone not found")])))
      = Except.error (PyExc.cpanelAPIError "WHM API error: zone not found") := by
  refine ⟨?_, ?_, ?_, ?_, rfl⟩
  · rw [make_whm_call_handle_obj]
    by_cases h : (pyEqZero (jGet fields "result") || pyEqZero (jGet fields "status")) = true
    · rw [if_pos h]
      rw [Bool.or_eq_true] at h
      exact ⟨fun _ => h, fun _ => ⟨_, rfl⟩⟩
    · rw [if_neg h]
      rw [Bool.or_eq_true] at h
      constructor
      · rintro ⟨m, hm⟩
        exact Except.noConfusion hm
      · intro hcon
        exact absurd hcon h
  · intro r hflag hreason
    rw [make_whm_call_handle_obj, if_pos (by rw [Bool.or_eq_true]; exact hflag), hreason]
    rfl
  · intro m hflag hreason hstat
    rw [make_whm_call_handle_obj, if_pos (by rw [Bool.or_eq_true]; exact hflag), hreason,
      hstat]
    rfl
  · intro hflag hreason hstat
    rw [make_whm_call_handle_obj, if_pos (by rw [Bool.or_eq_true]; exact hflag), hreason,
      hstat]
    rfl

/-- Witness for C6 at the spec's concrete failing payload. -/
theorem claim6_whm_error_classification_witness :
    make_whm_call_handle (HttpResult.response 200 (Except.ok (JValue.obj
      [("result", JValue.num 0), ("reason", JValue.str "zone not found")])))
      = Except.error (PyExc.cpanelAPIError "WHM API error: zone not found") :=
  (claim6_whm_error_classification
    [("result", JValue.num 0), ("reason", JValue.str "zone not found")]).2.1
    "zone not found" (Or.inl rfl) rfl

theorem valid_types_fixed :
    ∀ v ∈ VALID_DNS_RECORD_TYPES, pyStrip v = v ∧ pyUpper v = v := by decide

theorem valid_classes_fixed :
    ∀ v ∈ ["IN", "CH", "HS"], pyStrip v = v ∧ pyUpper v = v := by decide

/-- Claim C7: `add_dns_record` accepts any record type whose uppercasing
is in the allow-list and transmits it uppercased (the "type" parameter
of the built request); `"a"` goes on the wire as `"A"`; type `"XYZ"`
and `ttl = 0` fail validation with `ValueError` for every wire outcome
(no network call is consulted), while the default `ttl = 3600` builds
the call; the `ValueError` classification is distinct from the remote
`CpanelAPIError` classification. -/
theorem claim7_dns_record_validation :
    (∀ (api : CpanelAPI) (domain name record_type address : String) (ttl : Int)
        (record_class : String),
      domain ≠ "" → name ≠ "" → record_type ≠ "" → address ≠ "" →
      pyUpper record_type ∈ VALID_DNS_RECORD_TYPES →
      1 ≤ ttl →
      pyUpper record_class ∈ ["IN", "CH", "HS"] →
      ∃ req, add_dns_record_request api domain name record_type address ttl record_class
          = Except.ok req ∧
        dictLookup req.params "type" = some (PValue.str (pyUpper record_type)))
  ∧ (∀ (api : CpanelAPI) (wire : Request → HttpResult),
      add_dns_record api "example.com" "www" "a" "1.2.3.4" 3600 "IN" wire
        = make_whm_call_handle (wire (make_whm_call_request api "addzonerecord"
            [("domain", PValue.str "example.com"), ("name", PValue.str "www"),
             ("class", PValue.str "IN"), ("ttl", PValue.int 3600),
             ("type", PValue.str "A"), ("address", PValue.str "1.2.3.4")])))
  ∧ (∀ (api : CpanelAPI) (wire : Request → HttpResult),
      add_dns_record api "example.com" "www" "XYZ" "1.2.3.4" 3600 "IN" wire
        = Except.error (PyExc.valueError
            "Invalid DNS record type 'XYZ'. Valid types: A, AAAA, CAA, CNAME, MX, NS, PTR, SRV, TLSA, TXT"))
  ∧ (∀ (api : CpanelAPI) (wire : Request → HttpResult),
      add_dns_record api "example.com" "www" "A" "1.2.3.4" 0 "IN" wire
        = Except.error (PyExc.valueError "TTL must be greater than 0"))
  ∧ (∀ m m', PyExc.valueError m ≠ PyExc.cpanelAPIError m') := by
  refine ⟨?_, fun _ _ => rfl, fun _ _ => rfl, fun _ _ => rfl,
    fun m m' h => PyExc.noConfusion h⟩
  intro api domain name record_type address ttl record_class hd hn ht ha htype httl hclass
  have hfixT : pyStrip (pyUpper record_type) = pyUpper record_type :=
    (valid_types_fixed _ htype).1
  have hupT : pyUpper (pyUpper record_type) = pyUpper record_type :=
    (valid_types_fixed _ htype).2
  have hfixC : pyStrip (pyUpper record_class) = pyUpper record_class :=
    (valid_classes_fixed _ hclass).1
  have hcont : VALID_DNS_RECORD_TYPES.contains (pyUpper record_type) = true := by
    simpa using htype
  have hcontC : List.contains ["IN", "CH", "HS"] (pyStrip (pyUpper record_class)) = true := by
    rw [hfixC]
    simpa using hclass
  have hvalid : _validate_dns_record_type (pyStrip (pyUpper record_type)) = Except.ok () := by
    simp only [_validate_dns_record_type, hfixT, hupT, hcont]
    simp
  refine ⟨make_whm_call_request api "addzonerecord"
      [("domain", PValue.str (pyStrip domain)), ("name", PValue.str (pyStrip name)),
       ("class", PValue.str (pyStrip (pyUpper record_class))),
       ("ttl", PValue.int ttl), ("type", PValue.str (pyStrip (pyUpper record_type))),
       ("address", PValue.str (pyStrip address))], ?_, ?_⟩
  · simp only [add_dns_record_request, hvalid]
    rw [if_neg (by simp [hd, hn, ht, ha])]
    rw [if_neg (show ¬ ttl < 1 by omega)]
    rw [if_neg (not_not_intro hcontC)]
  · have hl : dictLookup (make_whm_call_request api "addzonerecord"
        [("domain", PValue.str (pyStrip domain)), ("name", PValue.str (pyStrip name)),
         ("class", PValue.str (pyStrip (pyUpper record_class))),
         ("ttl", PValue.int ttl), ("type", PValue.str (pyStrip (pyUpper record_type))),
         ("address", PValue.str (pyStrip address))]).params "type"
        = some (PValue.str (pyStrip (pyUpper record_type))) := rfl
    rw [hl, hfixT]

/-- Witness for C7: the type `"a"` (lower-case, in the allow-list up to
case) is accepted and transmitted as `"A"`. -/
theorem claim7_dns_record_validation_witness :
    ∃ req, add_dns_record_request exampleApi "example.com" "www" "a" "1.2.3.4" 3600 "IN"
        = Except.ok req ∧
      dictLookup req.params "type" = some (PValue.str (pyUpper "a")) :=
  claim7_dns_record_validation.1 exampleApi "example.com" "www" "a" "1.2.3.4" 3600 "IN"
    (by decide) (by decide) (by decide) (by decide) (by decide) (by decide) (by decide)
